import Mathlib

/-!
Shallow embedding of the HTTQ protocol Rust SDK (`src/sdks/rust/src/lib.rs`).

Bytes are modelled as `Nat` (each < 256 where produced by the code), byte
sequences as `List Nat`.  The `sha2` crate's SHA-256 is modelled by an
executable FIPS 180-4 implementation below.  The thread-local random number
generator (`rand::thread_rng`) is modelled by an explicit `rng : List Nat`
stream of random bytes passed to each primitive operation; an operation that
draws n random bytes takes `rng.take n` (mirroring `(0..n).map(|_| rng.gen())`),
and an operation that makes no draw ignores the stream.  Rust `Result` values
become `Except String`, matching the `Box<dyn Error>` string errors of the
source.
-/

/-! ## SHA-256 (model of the `sha2` crate) -/

/-- Right rotation of a 32-bit word represented as a `Nat` below `2^32`. -/
def rotr32 (n x : Nat) : Nat :=
  (x % 2 ^ n) * 2 ^ (32 - n) + x / 2 ^ n

/-- Logical right shift of a 32-bit word. -/
def shr32 (n x : Nat) : Nat :=
  x / 2 ^ n

/-- The SHA-256 round constants (FIPS 180-4, the first 32 bits of the
fractional parts of the cube roots of the first 64 primes), in decimal. -/
def shaK : List Nat :=
  [1116352408, 1899447441, 3049323471, 3921009573, 961987163, 1508970993,
   2453635748, 2870763221, 3624381080, 310598401, 607225278, 1426881987,
   1925078388, 2162078206, 2614888103, 3248222580, 3835390401, 4022224774,
   264347078, 604807628, 770255983, 1249150122, 1555081692, 1996064986,
   2554220882, 2821834349, 2952996808, 3210313671, 3336571891, 3584528711,
   113926993, 338241895, 666307205, 773529912, 1294757372, 1396182291,
   1695183700, 1986661051, 2177026350, 2456956037, 2730485921, 2820302411,
   3259730800, 3345764771, 3516065817, 3600352804, 4094571909, 275423344,
   430227734, 506948616, 659060556, 883997877, 958139571, 1322822218,
   1537002063, 1747873779, 1955562222, 2024104815, 2227730452, 2361852424,
   2428436474, 2756734187, 3204031479, 3329325298]

/-- Working state of the SHA-256 compression function: eight 32-bit words. -/
structure ShaState where
  a : Nat
  b : Nat
  c : Nat
  d : Nat
  e : Nat
  f : Nat
  g : Nat
  h : Nat

/-- The SHA-256 initial hash value (FIPS 180-4), in decimal. -/
def shaInit : ShaState :=
  ⟨1779033703, 3144134277, 1013904242, 2773480762,
   1359893119, 2600822924, 528734635, 1541459225⟩

/-- Message schedule for one 64-byte block: the 16 big-endian input words
extended to 64 words. -/
def shaSchedule (block : List Nat) : List Nat :=
  let w0 := (List.range 16).map fun i =>
    block.getD (4 * i) 0 * 16777216 + block.getD (4 * i + 1) 0 * 65536 +
      block.getD (4 * i + 2) 0 * 256 + block.getD (4 * i + 3) 0
  (List.range 48).foldl
    (fun w t =>
      let s0 := rotr32 7 (w.getD (t + 1) 0) ^^^ rotr32 18 (w.getD (t + 1) 0) ^^^
        shr32 3 (w.getD (t + 1) 0)
      let s1 := rotr32 17 (w.getD (t + 14) 0) ^^^ rotr32 19 (w.getD (t + 14) 0) ^^^
        shr32 10 (w.getD (t + 14) 0)
      w ++ [(w.getD t 0 + s0 + w.getD (t + 9) 0 + s1) % 4294967296])
    w0

/-- The SHA-256 compression function on one 64-byte block. -/
def shaCompress (st : ShaState) (block : List Nat) : ShaState :=
  let w := shaSchedule block
  let r := (List.range 64).foldl
    (fun s t =>
      let S1 := rotr32 6 s.e ^^^ rotr32 11 s.e ^^^ rotr32 25 s.e
      let ch := (s.e &&& s.f) ^^^ ((4294967295 - s.e) &&& s.g)
      let temp1 := (s.h + S1 + ch + shaK.getD t 0 + w.getD t 0) % 4294967296
      let S0 := rotr32 2 s.a ^^^ rotr32 13 s.a ^^^ rotr32 22 s.a
      let maj := (s.a &&& s.b) ^^^ (s.a &&& s.c) ^^^ (s.b &&& s.c)
      let temp2 := (S0 + maj) % 4294967296
      ⟨(temp1 + temp2) % 4294967296, s.a, s.b, s.c,
       (s.d + temp1) % 4294967296, s.e, s.f, s.g⟩)
    st
  ⟨(st.a + r.a) % 4294967296, (st.b + r.b) % 4294967296,
   (st.c + r.c) % 4294967296, (st.d + r.d) % 4294967296,
   (st.e + r.e) % 4294967296, (st.f + r.f) % 4294967296,
   (st.g + r.g) % 4294967296, (st.h + r.h) % 4294967296⟩

/-- SHA-256 padding: append `0x80`, zero bytes to 56 mod 64, and the bit
length as eight big-endian bytes. -/
def shaPad (msg : List Nat) : List Nat :=
  let L := msg.length
  let k := (119 - L % 64) % 64
  let bits := L * 8
  msg ++ [128] ++ List.replicate k 0 ++
    [bits / 2 ^ 56 % 256, bits / 2 ^ 48 % 256, bits / 2 ^ 40 % 256,
     bits / 2 ^ 32 % 256, bits / 2 ^ 24 % 256, bits / 2 ^ 16 % 256,
     bits / 2 ^ 8 % 256, bits % 256]

/-- Split a byte list into 64-byte chunks; the fuel argument bounds the
number of chunks (any fuel at least the list length is enough). -/
def chunks64 : Nat → List Nat → List (List Nat)
  | 0, _ => []
  | _ + 1, [] => []
  | n + 1, l => l.take 64 :: chunks64 n (l.drop 64)

/-- SHA-256 digest of a byte sequence, as its 32 digest bytes. -/
def sha256 (msg : List Nat) : List Nat :=
  let padded := shaPad msg
  let st := (chunks64 padded.length padded).foldl shaCompress shaInit
  [st.a / 16777216 % 256, st.a / 65536 % 256, st.a / 256 % 256, st.a % 256,
   st.b / 16777216 % 256, st.b / 65536 % 256, st.b / 256 % 256, st.b % 256,
   st.c / 16777216 % 256, st.c / 65536 % 256, st.c / 256 % 256, st.c % 256,
   st.d / 16777216 % 256, st.d / 65536 % 256, st.d / 256 % 256, st.d % 256,
   st.e / 16777216 % 256, st.e / 65536 % 256, st.e / 256 % 256, st.e % 256,
   st.f / 16777216 % 256, st.f / 65536 % 256, st.f / 256 % 256, st.f % 256,
   st.g / 16777216 % 256, st.g / 65536 % 256, st.g / 256 % 256, st.g % 256,
   st.h / 16777216 % 256, st.h / 65536 % 256, st.h / 256 % 256, st.h % 256]

/-- SHA-256 always emits exactly 32 digest bytes. -/
theorem sha256_length (msg : List Nat) : (sha256 msg).length = 32 := rfl

/-! ## The HTTQ data model -/

/-- Security levels for HTTQ (Rust `enum SecurityLevel`), each with its
discriminant value (1024 / 2048 / 4096). -/
inductive SecurityLevel where
  | HTTQ1024
  | HTTQ2048
  | HTTQ4096
deriving DecidableEq, Repr

/-- The numeric discriminant of a security level (`level as u32` in Rust). -/
def SecurityLevel.toNat : SecurityLevel → Nat
  | .HTTQ1024 => 1024
  | .HTTQ2048 => 2048
  | .HTTQ4096 => 4096

/-- HTTQ key pair (Rust `struct KeyPair`). -/
structure KeyPair where
  public_key : List Nat
  private_key : List Nat
  algorithm : String
  security_bits : Nat
deriving DecidableEq, Repr

/-- HTTQ-LATTICE cryptographic implementation (Rust `struct HTTPQLattice`). -/
structure HTTPQLattice where
  security_level : SecurityLevel
  n : Nat
  q : Nat
  k : Nat

/-- Create a new HTTQ-LATTICE instance (Rust `HTTPQLattice::new`). -/
def HTTPQLattice.new (level : SecurityLevel) : HTTPQLattice :=
  let qk : Nat × Nat :=
    match level with
    | .HTTQ1024 => (3329, 2)
    | .HTTQ2048 => (7681, 3)
    | .HTTQ4096 => (12289, 4)
  { security_level := level
    n := level.toNat
    q := qk.1
    k := qk.2 }

/-- The ASCII bytes of the domain-separation tag `b"public"`. -/
def publicTag : List Nat := [112, 117, 98, 108, 105, 99]

/-- Generate an HTTQ-LATTICE key pair (Rust `HTTPQLattice::generate_keypair`).
The 32-byte random seed drawn from `thread_rng` is `rng.take 32`. -/
def HTTPQLattice.generate_keypair (self : HTTPQLattice) (rng : List Nat) :
    Except String KeyPair :=
  let seed := rng.take 32
  let private_key := sha256 seed
  let public_key := sha256 (private_key ++ publicTag)
  let security_bits : Nat :=
    match self.security_level with
    | .HTTQ1024 => 128
    | .HTTQ2048 => 192
    | .HTTQ4096 => 256
  Except.ok
    { public_key := public_key
      private_key := private_key
      algorithm := "HTTQ-LATTICE-" ++ toString self.security_level.toNat
      security_bits := security_bits }

/-- Encapsulate a shared secret (Rust `HTTPQLattice::encapsulate`).  The
32-byte random message drawn from `thread_rng` is `rng.take 32`; the result is
`(ciphertext, shared_secret)`. -/
def HTTPQLattice.encapsulate (self : HTTPQLattice) (rng : List Nat)
    (public_key : List Nat) : Except String (List Nat × List Nat) :=
  let message := rng.take 32
  let shared_secret := sha256 (message ++ public_key)
  let ciphertext := sha256 (public_key ++ message)
  Except.ok (ciphertext, shared_secret)

/-- Decapsulate a shared secret (Rust `HTTPQLattice::decapsulate`).  The
source makes no call to `thread_rng`, so the `rng` stream is unused. -/
def HTTPQLattice.decapsulate (self : HTTPQLattice) (rng : List Nat)
    (ciphertext private_key : List Nat) : Except String (List Nat) :=
  let shared_secret := sha256 (ciphertext ++ private_key)
  Except.ok shared_secret

/-- HTTQ session information (Rust `struct Session`). -/
structure Session where
  shared_secret : List Nat
  algorithm : String
  security_bits : Nat
deriving DecidableEq, Repr

/-- HTTP response (Rust `struct Response`). -/
structure Response where
  status : Nat
  data : String
  quantum_safe : Bool
deriving DecidableEq, Repr

/-- HTTQ client (Rust `struct Client`). -/
structure Client where
  algorithm : String
  hybrid_mode : Bool
  fallback_to_https : Bool
  lattice : HTTPQLattice

/-- Create a new HTTQ client (Rust `Client::new`): the algorithm string
selects the security level, unrecognized names falling through to
`HTTQ2048`. -/
def Client.new (algorithm : String) (hybrid_mode fallback_to_https : Bool) :
    Client :=
  let level :=
    if algorithm = "HTTQ-LATTICE-1024" then SecurityLevel.HTTQ1024
    else if algorithm = "HTTQ-LATTICE-4096" then SecurityLevel.HTTQ4096
    else SecurityLevel.HTTQ2048
  { algorithm := algorithm
    hybrid_mode := hybrid_mode
    fallback_to_https := fallback_to_https
    lattice := HTTPQLattice.new level }

/-- Perform the HTTQ handshake (Rust `Client::perform_handshake`): generate
the client key pair, simulate a server key pair, and encapsulate against the
server public key.  The three `thread_rng` draws of the three primitive calls
are the streams `rng1`, `rng2`, `rng3`. -/
def Client.perform_handshake (self : Client) (_url : String)
    (rng1 rng2 rng3 : List Nat) : Except String Session := do
  let keypair ← self.lattice.generate_keypair rng1
  let server_keypair ← self.lattice.generate_keypair rng2
  let (_ciphertext, shared_secret) ←
    self.lattice.encapsulate rng3 server_keypair.public_key
  Except.ok
    { shared_secret := shared_secret
      algorithm := self.algorithm
      security_bits := keypair.security_bits }

/-- Model of Rust `str::starts_with`: the pattern's characters are a prefix
of the string's characters. -/
def strStartsWith (s p : String) : Bool :=
  p.data.isPrefixOf s.data

/-- Dispatch a request (Rust `Client::request`): route on the URL scheme to
the quantum path, the HTTPS fallback path, or an unsupported-protocol error.
The literal braces of the Rust format strings are written `\x7b`/`\x7d`. -/
def Client.request (self : Client) (method url : String)
    (_data : Option (List Nat)) (rng1 rng2 rng3 : List Nat) :
    Except String Response :=
  if strStartsWith url "httq://" then do
    let session ← self.perform_handshake url rng1 rng2 rng3
    Except.ok
      { status := 200
        data := "\x7b\"message\":\"Quantum-safe communication established!\",\"algorithm\":\""
          ++ session.algorithm ++ "\",\"security_bits\":"
          ++ toString session.security_bits ++ "\x7d"
        quantum_safe := true }
  else if strStartsWith url "https://" && self.fallback_to_https then
    Except.ok
      { status := 200
        data := "\x7b\"message\":\"Regular HTTPS response\"\x7d"
        quantum_safe := false }
  else
    Except.error ("Unsupported protocol in URL: " ++ url)

/-- Perform a quantum-safe GET request (Rust `Client::get`). -/
def Client.get (self : Client) (url : String) (rng1 rng2 rng3 : List Nat) :
    Except String Response :=
  self.request "GET" url none rng1 rng2 rng3

/-- Perform a quantum-safe POST request (Rust `Client::post`). -/
def Client.post (self : Client) (url : String) (data : Option (List Nat))
    (rng1 rng2 rng3 : List Nat) : Except String Response :=
  self.request "POST" url data rng1 rng2 rng3

/-! ## Concrete fixtures

A fully evaluated run of the primitive on explicit random streams: the
key-pair seed stream is 32 zero bytes, the encapsulation message stream is
32 bytes `0x01`.  The digests below are the corresponding SHA-256 values. -/

/-- Sample RNG stream for key generation: 32 zero bytes. -/
def sampleSeedRng : List Nat := List.replicate 32 0

/-- Sample RNG stream for encapsulation: 32 bytes `0x01`. -/
def sampleMsgRng : List Nat := List.replicate 32 1

/-- The private key derived from the all-zero seed:
`SHA-256(seed)`. -/
def samplePrivateKey : List Nat :=
  [102, 104, 122, 173, 248, 98, 189, 119, 108, 143, 193, 139, 142, 159, 142,
   32, 8, 151, 20, 133, 110, 226, 51, 179, 144, 42, 89, 29, 13, 95, 41, 37]

/-- The public key derived from `samplePrivateKey`:
`SHA-256(private_key ‖ "public")`. -/
def samplePublicKey : List Nat :=
  [209, 224, 103, 38, 124, 31, 71, 110, 131, 82, 254, 17, 222, 240, 25, 73,
   130, 29, 65, 92, 62, 125, 112, 17, 177, 142, 203, 230, 92, 244, 176, 4]

/-- The ciphertext of encapsulating against `samplePublicKey` with the
all-one message: `SHA-256(public_key ‖ message)`. -/
def sampleCiphertext : List Nat :=
  [240, 34, 154, 176, 246, 229, 111, 125, 237, 128, 244, 246, 167, 130, 60,
   124, 34, 59, 220, 24, 14, 245, 165, 5, 137, 122, 33, 98, 160, 170, 90, 3]

/-- The shared secret `encapsulate` produces for that run:
`SHA-256(message ‖ public_key)`. -/
def sampleEncapSecret : List Nat :=
  [26, 65, 231, 109, 27, 44, 181, 133, 49, 215, 90, 64, 131, 50, 77, 157,
   195, 246, 223, 12, 84, 209, 138, 217, 124, 190, 179, 74, 181, 3, 144, 241]

/-- The shared secret `decapsulate` recovers for that run:
`SHA-256(ciphertext ‖ private_key)`. -/
def sampleDecapSecret : List Nat :=
  [78, 233, 235, 217, 83, 208, 59, 82, 230, 237, 221, 17, 23, 107, 223, 24,
   61, 250, 224, 92, 253, 198, 227, 23, 176, 44, 105, 204, 188, 114, 100, 57]

/-! ## Claims -/

set_option maxRecDepth 100000

set_option maxHeartbeats 2000000

/-- C1: round-trip agreement fails on the code.  For the key pair generated
from the all-zero seed stream and the encapsulation against its public key
with the all-one message stream, `decapsulate` on the resulting ciphertext
with the matching private key returns a shared secret different from the one
`encapsulate` produced: the code hashes `(ciphertext, private_key)` on
decapsulation but `(message, public_key)` on encapsulation. -/
theorem decapsulate_disagrees_with_encapsulate :
    (HTTPQLattice.new SecurityLevel.HTTQ2048).generate_keypair sampleSeedRng =
      Except.ok ⟨samplePublicKey, samplePrivateKey, "HTTQ-LATTICE-2048", 192⟩ ∧
    (HTTPQLattice.new SecurityLevel.HTTQ2048).encapsulate sampleMsgRng
        samplePublicKey =
      Except.ok (sampleCiphertext, sampleEncapSecret) ∧
    (HTTPQLattice.new SecurityLevel.HTTQ2048).decapsulate sampleSeedRng
        sampleCiphertext samplePrivateKey =
      Except.ok sampleDecapSecret ∧
    sampleDecapSecret ≠ sampleEncapSecret :=
  ⟨rfl, rfl, rfl, by decide⟩

/-- C2 counterexample: the empty byte sequence has length 0, not the fixed
32-byte public-key length of the instance, yet `encapsulate` succeeds on it
instead of failing with an invalid-key error. -/
theorem encapsulate_accepts_wrong_length_key :
    ([] : List Nat).length ≠ 32 ∧
    ∃ r, (HTTPQLattice.new SecurityLevel.HTTQ2048).encapsulate sampleMsgRng [] =
      Except.ok r :=
  ⟨by decide, _, rfl⟩

/-- C2 (amended): `encapsulate` performs no validation of the input key at
all — it succeeds on every byte sequence of every length, for every security
level and every RNG stream. -/
theorem encapsulate_never_fails (level : SecurityLevel) (rng pk : List Nat) :
    ∃ ct ss, (HTTPQLattice.new level).encapsulate rng pk =
      Except.ok (ct, ss) :=
  ⟨_, _, rfl⟩

/-- C4: dispatch routing on a non-quantum target is decided by the scheme
prefix and the fallback flag alone: an `https://` target with fallback
enabled yields a status-200 response with `quantum_safe = false`, and any
target that neither has the `httq://` scheme nor is an `https://` target
with fallback enabled fails with the unsupported-protocol error carrying the
offending URL. -/
theorem request_dispatch_routing (alg method : String) (hm fb : Bool)
    (d : Option (List Nat)) (r1 r2 r3 : List Nat) (url : String)
    (hq : strStartsWith url "httq://" = false) :
    (strStartsWith url "https://" = true → fb = true →
      (Client.new alg hm fb).request method url d r1 r2 r3 =
        Except.ok ⟨200, "\x7b\"message\":\"Regular HTTPS response\"\x7d", false⟩) ∧
    (strStartsWith url "https://" = false ∨ fb = false →
      (Client.new alg hm fb).request method url d r1 r2 r3 =
        Except.error ("Unsupported protocol in URL: " ++ url)) := by
  constructor
  · intro h1 h2
    simp [Client.request, Client.new, hq, h1, h2]
  · intro h
    rcases h with h | h
    · simp [Client.request, Client.new, hq, h]
    · simp [Client.request, Client.new, hq, h]

/-- C4 witness: the fallback branch and the rejection branch at concrete
inputs — an `https://` target with fallback enabled succeeds without quantum
safety, and an `ftp://` target fails with the unsupported-protocol error. -/
theorem request_dispatch_routing_witness :
    (Client.new "HTTQ-LATTICE-2048" true true).request "GET"
        "https://host/path" none [] [] [] =
      Except.ok ⟨200, "\x7b\"message\":\"Regular HTTPS response\"\x7d", false⟩ ∧
    (Client.new "HTTQ-LATTICE-2048" true false).request "GET"
        "ftp://host/path" none [] [] [] =
      Except.error ("Unsupported protocol in URL: " ++ "ftp://host/path") :=
  ⟨(request_dispatch_routing "HTTQ-LATTICE-2048" "GET" true true none [] [] []
      "https://host/path" (by decide)).1 (by decide) rfl,
   (request_dispatch_routing "HTTQ-LATTICE-2048" "GET" true false none [] [] []
      "ftp://host/path" (by decide)).2 (Or.inr rfl)⟩

/-- C5: every target with the `httq://` scheme prefix under the default
algorithm `HTTQ-LATTICE-2048` succeeds for every RNG stream with status 200,
`quantum_safe = true`, and a body containing the negotiated algorithm name
and the numeric security-bit count (192). -/
theorem request_httq_success (hm fb : Bool) (method url : String)
    (d : Option (List Nat)) (r1 r2 r3 : List Nat)
    (hq : strStartsWith url "httq://" = true) :
    (Client.new "HTTQ-LATTICE-2048" hm fb).request method url d r1 r2 r3 =
      Except.ok
        ⟨200,
         "\x7b\"message\":\"Quantum-safe communication established!\",\"algorithm\":\""
           ++ "HTTQ-LATTICE-2048" ++ "\",\"security_bits\":"
           ++ toString (192 : Nat) ++ "\x7d",
         true⟩ := by
  unfold Client.request
  rw [hq]
  rfl

/-- C5 witness: the concrete target `"httq://host/path"` with empty RNG
streams succeeds with the quantum-safe response. -/
theorem request_httq_success_witness :
    (Client.new "HTTQ-LATTICE-2048" true true).request "GET"
        "httq://host/path" none [] [] [] =
      Except.ok
        ⟨200,
         "\x7b\"message\":\"Quantum-safe communication established!\",\"algorithm\":\""
           ++ "HTTQ-LATTICE-2048" ++ "\",\"security_bits\":"
           ++ toString (192 : Nat) ++ "\x7d",
         true⟩ :=
  request_httq_success true true "GET" "httq://host/path" none [] [] []
    (by decide)

/-- C6: for every security level and every RNG stream, `generate_keypair`
succeeds with public and private keys of the fixed 32-byte length (hence of
equal length) and with `security_bits` matching the level's nominal strength
(HTTQ1024 → 128, HTTQ2048 → 192, HTTQ4096 → 256). -/
theorem generate_keypair_lengths_and_bits (level : SecurityLevel)
    (rng : List Nat) :
    ∃ kp : KeyPair,
      (HTTPQLattice.new level).generate_keypair rng = Except.ok kp ∧
      kp.public_key.length = 32 ∧
      kp.private_key.length = 32 ∧
      kp.public_key.length = kp.private_key.length ∧
      kp.security_bits =
        (match level with
         | .HTTQ1024 => 128
         | .HTTQ2048 => 192
         | .HTTQ4096 => 256) := by
  cases level <;>
    (refine ⟨_, rfl, ?_, ?_, ?_, rfl⟩ <;> simp [sha256_length])

/-- C7: `decapsulate` is deterministic — it makes no random draw, so its
result is independent of the thread RNG stream: two calls on the same
instance with the same ciphertext and private key return the same shared
secret whatever randomness is available. -/
theorem decapsulate_deterministic (level : SecurityLevel)
    (rng1 rng2 ct sk : List Nat) :
    (HTTPQLattice.new level).decapsulate rng1 ct sk =
      (HTTPQLattice.new level).decapsulate rng2 ct sk :=
  rfl

/-- C8: client construction maps the three recognized algorithm names to
their security levels, and every other algorithm string falls through to
`HTTQ2048`, whose key pairs carry 192 security bits. -/
theorem client_new_algorithm_lookup (hm fb : Bool) :
    (Client.new "HTTQ-LATTICE-1024" hm fb).lattice.security_level =
      SecurityLevel.HTTQ1024 ∧
    (Client.new "HTTQ-LATTICE-2048" hm fb).lattice.security_level =
      SecurityLevel.HTTQ2048 ∧
    (Client.new "HTTQ-LATTICE-4096" hm fb).lattice.security_level =
      SecurityLevel.HTTQ4096 ∧
    ∀ s : String, s ≠ "HTTQ-LATTICE-1024" → s ≠ "HTTQ-LATTICE-2048" →
      s ≠ "HTTQ-LATTICE-4096" →
      (Client.new s hm fb).lattice.security_level = SecurityLevel.HTTQ2048 ∧
      ∃ kp, (Client.new s hm fb).lattice.generate_keypair [] = Except.ok kp ∧
        kp.security_bits = 192 := by
  refine ⟨rfl, rfl, rfl, fun s h1 _ h3 => ?_⟩
  have hlat : (Client.new s hm fb).lattice = HTTPQLattice.new .HTTQ2048 := by
    simp [Client.new, h1, h3]
  rw [hlat]
  exact ⟨rfl, _, rfl, rfl⟩

/-- C8 witness: the unrecognized algorithm name `"UNKNOWN"` selects
`HTTQ2048` with 192 security bits. -/
theorem client_new_algorithm_lookup_witness :
    (Client.new "UNKNOWN" true true).lattice.security_level =
      SecurityLevel.HTTQ2048 ∧
    ∃ kp, (Client.new "UNKNOWN" true true).lattice.generate_keypair [] =
      Except.ok kp ∧ kp.security_bits = 192 :=
  (client_new_algorithm_lookup true true).2.2.2 "UNKNOWN" (by decide)
    (by decide) (by decide)

/-- C9: the `hybrid_mode` flag has no behavioral effect: two clients that
differ only in it produce literally identical results (status, body,
quantum-safety flag, and error outcome) for every method, URL, body, and
RNG stream. -/
theorem hybrid_mode_no_behavioral_effect (alg : String) (h1 h2 fb : Bool)
    (method url : String) (d : Option (List Nat)) (r1 r2 r3 : List Nat) :
    (Client.new alg h1 fb).request method url d r1 r2 r3 =
      (Client.new alg h2 fb).request method url d r1 r2 r3 :=
  rfl

/-- C10: every byte-sequence output of the KEM primitive is exactly 32
bytes, independent of the security level: the generated public and private
keys, the ciphertext and shared secret of `encapsulate` (on any input key),
and the shared secret of `decapsulate` (on any inputs). -/
theorem primitive_outputs_always_32_bytes (level : SecurityLevel)
    (rngK rngE rngD ct sk pk : List Nat) :
    (∃ kp, (HTTPQLattice.new level).generate_keypair rngK = Except.ok kp ∧
      kp.public_key.length = 32 ∧ kp.private_key.length = 32) ∧
    (∃ c s, (HTTPQLattice.new level).encapsulate rngE pk = Except.ok (c, s) ∧
      c.length = 32 ∧ s.length = 32) ∧
    (∃ sd, (HTTPQLattice.new level).decapsulate rngD ct sk = Except.ok sd ∧
      sd.length = 32) := by
  refine ⟨⟨_, rfl, ?_, ?_⟩, ⟨_, _, rfl, ?_, ?_⟩, ⟨_, rfl, ?_⟩⟩ <;>
    simp [sha256_length]
